import Mathlib

/-!
# Verification of the reputation-bot core

A shallow embedding, in Lean 4, of the reputation-bot webhook service
(`reputation.py`, `github_client.py`, `app.py`) together with proofs about
its scoring formula, activity aggregation, participant extraction, ranking,
comment reconciliation and event routing.

Machine integers of the source are modelled as `Nat`/`Int` (Python integers
are unbounded, so no wrap-around modelling is needed).  Network calls of the
GitHub API are modelled by explicit environments describing what each call
returns, including the point at which an iteration raises an exception.
-/

namespace ReputationBot

/-! ## `reputation.py` -/

/-- The per-user activity record built by `GithubClient.get_user_reputation`
and consumed by `calculate_reputation` / `format_reputation_line`
(the `data` dictionary of `reputation.py`). -/
structure ActivityRecord where
  merged_prs : Nat
  open_prs : Nat
  closed_prs : Nat
  issues : Nat
  comments : Nat
  core_thumbs_up : Nat
  core_thumbs_down : Nat
deriving Repr, DecidableEq

/-- `calculate_reputation` of `reputation.py`: the running `score`
accumulator, one statement per line of the source. -/
def calculate_reputation (data : ActivityRecord) : Int :=
  let score : Int := 0
  let score := score + (data.merged_prs : Int) * 20
  let score := score + (data.open_prs : Int) * 3
  let score := score - (data.closed_prs : Int) * 10
  let score := score + (data.issues : Int) * 5
  let score := score + (data.core_thumbs_up : Int) * 15
  let score := score - (data.core_thumbs_down : Int) * 50
  score

/-- `format_reputation_line` of `reputation.py` (the compact single-line
rendering used on pull requests). -/
def format_reputation_line (score : Int) (data : ActivityRecord) : String :=
  let pr_str := toString data.merged_prs ++ "✅/" ++ toString data.open_prs ++ "🔄/"
      ++ toString data.closed_prs ++ "❌"
  let activity_str := toString data.issues ++ " issues, " ++ toString data.comments ++ " comments"
  let core_str := if data.core_thumbs_up > 0 then "+" ++ toString data.core_thumbs_up ++ "👍" else ""
  let core_str := if data.core_thumbs_down > 0 then
      (if core_str ≠ "" then core_str ++ " " else core_str) ++ "-" ++ toString data.core_thumbs_down ++ "👎"
    else core_str
  let core_str := if core_str = "" then "No reactions" else core_str
  "⚡ Rep: " ++ toString score ++ " | PRs: " ++ pr_str ++ " | Activity: " ++ activity_str
    ++ " | Core: " ++ core_str

/-- C1: `calculate_reputation` is exactly the fixed linear formula
`20*merged + 3*open - 10*closed + 5*issues + 15*up - 50*down`; the
`comments` field has no effect on the result, and the result may be
negative. -/
theorem calculate_reputation_formula (d : ActivityRecord) :
    calculate_reputation d =
      20 * (d.merged_prs : Int) + 3 * (d.open_prs : Int) - 10 * (d.closed_prs : Int)
        + 5 * (d.issues : Int) + 15 * (d.core_thumbs_up : Int) - 50 * (d.core_thumbs_down : Int)
    ∧ (∀ c₁ c₂ : Nat,
        calculate_reputation { d with comments := c₁ } =
        calculate_reputation { d with comments := c₂ })
    ∧ ∃ r : ActivityRecord, calculate_reputation r < 0 := by
  refine ⟨by unfold calculate_reputation; ring, fun c₁ c₂ => rfl,
    ⟨⟨0, 0, 0, 0, 0, 0, 1⟩, by decide⟩⟩

/-! ## `github_client.py` : `get_user_reputation`

The network is modelled by an environment recording what every GitHub API
call returns.  An iteration over a lazily-paginated result may raise an
exception part-way through; `ApiIter.err xs` records that the iteration
yielded `xs` and then raised on the next access, `ApiIter.ok xs` that it
yielded `xs` and completed. -/

/-- A pull request as observed by `get_user_reputation`: the author login
(`pr.user.login`), the `merged` flag and the `state` string. -/
structure PRInfo where
  author : String
  merged : Bool
  state : String
deriving Repr, DecidableEq

/-- Outcome of iterating an API-backed sequence: the yielded items, and
whether iterating past them raised (`err`) or the sequence ended (`ok`). -/
inductive ApiIter (α : Type) where
  | ok (items : List α)
  | err (items : List α)
deriving Repr, DecidableEq

/-- The items an iteration produced before completing or raising. -/
def ApiIter.yielded : ApiIter α → List α
  | .ok items => items
  | .err items => items

/-- The running `merged_prs` / `open_prs` / `closed_prs` counters. -/
structure PRCounts where
  merged_prs : Nat
  open_prs : Nat
  closed_prs : Nat
deriving Repr, DecidableEq

/-- Classification of one pull request (lines 50-55 and 81-86 of
`github_client.py`): `if pr.merged ... elif pr.state == 'open' ...
elif pr.state == 'closed'`. -/
def classifyPR (c : PRCounts) (pr : PRInfo) : PRCounts :=
  if pr.merged then { c with merged_prs := c.merged_prs + 1 }
  else if pr.state = "open" then { c with open_prs := c.open_prs + 1 }
  else if pr.state = "closed" then { c with closed_prs := c.closed_prs + 1 }
  else c

/-- The search-API path for pull requests (lines 40-61): classify the first
100 search results; an exception anywhere in the `try` block is caught,
leaving the counters exactly as accumulated and `pr_fetch_success = False`.
A raise after 100 or more yields is never observed because the slice
`[:100]` ends the loop first. -/
def prSearchPath (start : PRCounts) : ApiIter PRInfo → PRCounts × Bool
  | .ok prs => ((prs.take 100).foldl classifyPR start, true)
  | .err prs =>
      if prs.length < 100 then (prs.foldl classifyPR start, false)
      else ((prs.take 100).foldl classifyPR start, true)

/-- One step of the fallback loop (lines 73-86): count the pull request
only when its author is `username`. -/
def fallbackStep (username : String) (c : PRCounts) (pr : PRInfo) : PRCounts :=
  if pr.author = username then classifyPR c pr else c

/-- The fallback path (lines 64-91): walk `repo.get_pulls(state='all')`,
breaking after 300 checked pull requests.  An exception is caught with the
counters kept as accumulated (`# Leave counts at 0 instead of using fake
data` — which only holds when nothing was accumulated); a raise after 300
yields is never observed because the loop breaks at the 301st check, so in
both cases the result tallies the author-filtered first 300 yielded items
on top of `start`.  Note that `start` is whatever the failed search path
left behind: the source never resets the counters. -/
def prFallbackPath (start : PRCounts) (username : String) : ApiIter PRInfo → PRCounts
  | .ok prs => (prs.take 300).foldl (fallbackStep username) start
  | .err prs => (prs.take 300).foldl (fallbackStep username) start

/-- An issue as observed by the issue-fallback loop: whether it carries a
`pull_request` key (line 115). -/
structure IssueInfo where
  is_pull_request : Bool
deriving Repr, DecidableEq

/-- The issue-count metric (lines 94-120): the search path uses
`min(totalCount, 100)`; on search failure (`issue_search = .error`, which
can only happen before the count is assigned) the fallback counts the
non-PR entries among the first 100 issues returned for the user, an
exception again keeping the partial count (here: the yielded prefix). -/
def issuesPath (issue_search : Except Unit Nat) (issue_fallback : ApiIter IssueInfo) : Nat :=
  match issue_search with
  | .ok total => min total 100
  | .error _ =>
      match issue_fallback with
      | .ok issues => ((issues.take 100).filter (fun i => !i.is_pull_request)).length
      | .err issues => ((issues.take 100).filter (fun i => !i.is_pull_request)).length

/-- A reaction as observed by the reaction loop: `reaction.user.login` and
`reaction.content`. -/
structure ReactionInfo where
  user : String
  content : String
deriving Repr, DecidableEq

/-- One item of the comment-search results as inspected by the reaction
loop (lines 134-148): fetching the issue may fail (`.error`), which skips
the item (`continue`); on success we see the issue author and the reaction
iteration, whose mid-loop raise is also caught by the per-item `except`
with the partial tallies kept. -/
structure ItemInfo where
  fetched : Except Unit (String × ApiIter ReactionInfo)

/-- The comment-search `try` block (lines 124-153) has three failure
granularities: the search itself (or its `totalCount`) raises before
`comments_count` is assigned (`fail`); materialising the result list for
the reaction loop raises after it was assigned (`listFail`); or both
succeed (`ok`). -/
inductive CommentSearchOutcome where
  | fail
  | listFail (total : Nat)
  | ok (total : Nat) (items : List ItemInfo)

/-- The reaction tally over one inspected item (lines 135-148). -/
def itemReactions (username : String) (core_team : List String)
    (acc : Nat × Nat) (item : ItemInfo) : Nat × Nat :=
  match item.fetched with
  | .error _ => acc
  | .ok (author, reactions) =>
      if author = username then
        reactions.yielded.foldl (fun a r =>
          if core_team.contains r.user then
            if r.content = "+1" then (a.1 + 1, a.2)
            else if r.content = "-1" then (a.1, a.2 + 1)
            else a
          else a) acc
      else acc

/-- The comment-count and core-reaction metrics (lines 122-153):
`comments_count = min(totalCount, 50)` when assigned, and the reaction
loop inspects only the first 5 items. -/
def commentsPath (username : String) (core_team : List String) :
    CommentSearchOutcome → Nat × (Nat × Nat)
  | .fail => (0, (0, 0))
  | .listFail total => (min total 50, (0, 0))
  | .ok total items =>
      (min total 50, (items.take 5).foldl (itemReactions username core_team) (0, 0))

/-- One execution environment for `get_user_reputation`: what each GitHub
API call returns and where each iteration raises.  The repository handle
itself is assumed obtained (its failure re-raises out of the function,
line 27). -/
structure FetchEnv where
  pr_search : ApiIter PRInfo
  pr_fallback : ApiIter PRInfo
  issue_search : Except Unit Nat
  issue_fallback : ApiIter IssueInfo
  comment_search : CommentSearchOutcome

/-- `GithubClient.get_user_reputation` (lines 18-169), as a function of the
target user, the core team and the API environment. -/
def get_user_reputation (username : String) (core_team : List String)
    (env : FetchEnv) : ActivityRecord :=
  let searchOut := prSearchPath ⟨0, 0, 0⟩ env.pr_search
  let prCounts := searchOut.1
  let pr_fetch_success := searchOut.2
  let prCounts :=
    if pr_fetch_success then prCounts
    else prFallbackPath prCounts username env.pr_fallback
  let issues_created := issuesPath env.issue_search env.issue_fallback
  let commentsOut := commentsPath username core_team env.comment_search
  { merged_prs := prCounts.merged_prs
    open_prs := prCounts.open_prs
    closed_prs := prCounts.closed_prs
    issues := issues_created
    comments := commentsOut.1
    core_thumbs_up := commentsOut.2.1
    core_thumbs_down := commentsOut.2.2 }

/-- An environment in which the PR search classifies one merged pull
request by `alice` and then raises, and the fallback scan completes,
seeing that same merged pull request plus one open one. -/
def doubleCountEnv : FetchEnv :=
  { pr_search := .err [⟨"alice", true, "closed"⟩]
    pr_fallback := .ok [⟨"alice", true, "closed"⟩, ⟨"alice", false, "open"⟩]
    issue_search := .ok 0
    issue_fallback := .ok []
    comment_search := .fail }

/-- C2: refuted on the code.  When the PR search fails after classifying
one merged pull request and the fallback then runs, the returned counts are
the sum of both paths — the merged pull request is counted twice
(`merged_prs = 2`), whereas the fallback scan alone yields `merged_prs = 1`:
the counters are never reset between the two paths. -/
theorem get_user_reputation_double_counts :
    (get_user_reputation "alice" [] doubleCountEnv).merged_prs = 2 ∧
    (get_user_reputation "alice" [] doubleCountEnv).open_prs = 1 ∧
    (prFallbackPath ⟨0, 0, 0⟩ "alice" doubleCountEnv.pr_fallback).merged_prs = 1 := by
  decide

/-- An environment in which every sub-metric fetch fails: the PR search
raises after classifying one merged pull request, and the PR fallback, the
issue search, the issue fallback and the comment search all raise before
yielding anything. -/
def allFailEnv : FetchEnv :=
  { pr_search := .err [⟨"alice", true, "closed"⟩]
    pr_fallback := .err []
    issue_search := .error ()
    issue_fallback := .err []
    comment_search := .fail }

/-- C7 counterexample: with both the PR search and its fallback failing,
the PR sub-metric is *not* left at its zero value — the pull request
classified before the search raised survives into the result
(`merged_prs = 1`). -/
theorem sub_metric_failure_not_zeroed :
    (get_user_reputation "alice" [] allFailEnv).merged_prs = 1 := by
  decide

/-- C7 (amended): a sub-metric whose fetches all fail *before yielding any
item* is left at its zero value, and a failing sub-metric never aborts the
others: the record always carries all seven fields, each computed from its
own part of the environment alone. -/
theorem sub_metric_failure_zeroed_when_immediate (username : String)
    (core_team : List String) (env : FetchEnv) :
    (env.pr_search = .err [] → env.pr_fallback = .err [] →
      (get_user_reputation username core_team env).merged_prs = 0 ∧
      (get_user_reputation username core_team env).open_prs = 0 ∧
      (get_user_reputation username core_team env).closed_prs = 0) ∧
    (env.issue_search = .error () → env.issue_fallback = .err [] →
      (get_user_reputation username core_team env).issues = 0) ∧
    (env.comment_search = .fail →
      (get_user_reputation username core_team env).comments = 0 ∧
      (get_user_reputation username core_team env).core_thumbs_up = 0 ∧
      (get_user_reputation username core_team env).core_thumbs_down = 0) ∧
    (get_user_reputation username core_team env =
      { merged_prs := (if (prSearchPath ⟨0, 0, 0⟩ env.pr_search).2
          then (prSearchPath ⟨0, 0, 0⟩ env.pr_search).1
          else prFallbackPath (prSearchPath ⟨0, 0, 0⟩ env.pr_search).1 username
            env.pr_fallback).merged_prs
        open_prs := (if (prSearchPath ⟨0, 0, 0⟩ env.pr_search).2
          then (prSearchPath ⟨0, 0, 0⟩ env.pr_search).1
          else prFallbackPath (prSearchPath ⟨0, 0, 0⟩ env.pr_search).1 username
            env.pr_fallback).open_prs
        closed_prs := (if (prSearchPath ⟨0, 0, 0⟩ env.pr_search).2
          then (prSearchPath ⟨0, 0, 0⟩ env.pr_search).1
          else prFallbackPath (prSearchPath ⟨0, 0, 0⟩ env.pr_search).1 username
            env.pr_fallback).closed_prs
        issues := issuesPath env.issue_search env.issue_fallback
        comments := (commentsPath username core_team env.comment_search).1
        core_thumbs_up := (commentsPath username core_team env.comment_search).2.1
        core_thumbs_down := (commentsPath username core_team env.comment_search).2.2 }) := by
  refine ⟨fun h₁ h₂ => ?_, fun h₁ h₂ => ?_, fun h₁ => ?_, rfl⟩
  · simp [get_user_reputation, h₁, h₂, prSearchPath, prFallbackPath]
  · simp [get_user_reputation, issuesPath, h₁, h₂]
  · simp [get_user_reputation, commentsPath, h₁]

/-- Witness for the amended C7 at a concrete all-failing environment. -/
theorem sub_metric_failure_zeroed_witness :
    (get_user_reputation "bob" ["core"]
      { pr_search := .err [], pr_fallback := .err [], issue_search := .error (),
        issue_fallback := .err [], comment_search := .fail }).merged_prs = 0 ∧
    (get_user_reputation "bob" ["core"]
      { pr_search := .err [], pr_fallback := .err [], issue_search := .error (),
        issue_fallback := .err [], comment_search := .fail }).issues = 0 ∧
    (get_user_reputation "bob" ["core"]
      { pr_search := .err [], pr_fallback := .err [], issue_search := .error (),
        issue_fallback := .err [], comment_search := .fail }).comments = 0 :=
  ⟨((sub_metric_failure_zeroed_when_immediate "bob" ["core"] _).1 rfl rfl).1,
   (sub_metric_failure_zeroed_when_immediate "bob" ["core"] _).2.1 rfl rfl,
   ((sub_metric_failure_zeroed_when_immediate "bob" ["core"] _).2.2.1 rfl).1⟩

/-! ## `github_client.py` : `get_issue_participants` -/

/-- An issue thread as inspected by `get_issue_participants`: the author
login (`issue.user.login`) and the comment author logins in order. -/
structure IssueThread where
  author : String
  comment_authors : List String

/-- The comment loop of `get_issue_participants` (lines 185-196): skip
`London-Cat` (`continue`), otherwise add the login and stop as soon as the
set holds 10 participants. -/
def participantsLoop : List String → Finset String → Finset String
  | [], acc => acc
  | login :: rest, acc =>
      if login = "London-Cat" then participantsLoop rest acc
      else if 10 ≤ (insert login acc).card then insert login acc
      else participantsLoop rest (insert login acc)

/-- The final bot filter of `get_issue_participants` (line 202):
`not p.endswith('[bot]') and p != 'London-Cat'`.  Python's `str.endswith`
is modelled as a character-level suffix test. -/
def notBot (p : String) : Prop :=
  "[bot]".data.isSuffixOf p.data = false ∧ p ≠ "London-Cat"

instance (p : String) : Decidable (notBot p) := by unfold notBot; infer_instance

/-- `GithubClient.get_issue_participants` (lines 171-206): the author, plus
the authors of the first 30 comments (`continue` on `London-Cat`, break at
10 participants), then `[bot]`-suffixed accounts and `London-Cat` filtered
out. -/
def get_issue_participants (t : IssueThread) : Finset String :=
  (participantsLoop (t.comment_authors.take 30) {t.author}).filter notBot

/-- While the candidate set stays below the cap of 10, the comment loop
just accumulates the non-`London-Cat` logins. -/
theorem participantsLoop_no_cap : ∀ (xs : List String) (acc : Finset String),
    (acc ∪ (xs.filter (fun l => l ≠ "London-Cat")).toFinset).card ≤ 9 →
    participantsLoop xs acc = acc ∪ (xs.filter (fun l => l ≠ "London-Cat")).toFinset
  | [], acc, _ => by simp [participantsLoop]
  | login :: rest, acc, h => by
      by_cases hl : login = "London-Cat"
      · subst hl
        rw [participantsLoop, if_pos rfl,
          participantsLoop_no_cap rest acc (by simpa using h)]
        simp [List.filter_cons]
      · have hset : acc ∪ ((login :: rest).filter (fun l => l ≠ "London-Cat")).toFinset =
            insert login acc ∪ (rest.filter (fun l => l ≠ "London-Cat")).toFinset := by
          ext x
          simp [List.filter_cons, hl]
        have hins : (insert login acc ∪
            (rest.filter (fun l => l ≠ "London-Cat")).toFinset).card ≤ 9 := hset ▸ h
        have hcap : ¬ 10 ≤ (insert login acc).card := by
          have hsub : insert login acc ⊆ insert login acc ∪
              (rest.filter (fun l => l ≠ "London-Cat")).toFinset :=
            Finset.subset_union_left
          have := le_trans (Finset.card_le_card hsub) hins
          omega
        rw [participantsLoop, if_neg hl, if_neg hcap,
          participantsLoop_no_cap rest (insert login acc) hins]
        exact hset.symm

/-- C5: when the cap of 10 participants is not reached, the returned set is
exactly the thread author plus the distinct authors of the first 30
comments, with every `[bot]`-suffixed account and `London-Cat` removed. -/
theorem get_issue_participants_spec (t : IssueThread)
    (h : (insert t.author ((t.comment_authors.take 30).filter
        (fun l => l ≠ "London-Cat")).toFinset).card ≤ 9) :
    get_issue_participants t =
      (insert t.author (t.comment_authors.take 30).toFinset).filter notBot := by
  unfold get_issue_participants
  have h9 : (({t.author} : Finset String) ∪ ((t.comment_authors.take 30).filter
      (fun l => l ≠ "London-Cat")).toFinset).card ≤ 9 := by
    simpa using h
  rw [participantsLoop_no_cap _ _ h9]
  ext x
  simp only [Finset.mem_filter, Finset.mem_union, Finset.mem_singleton,
    Finset.mem_insert, List.mem_toFinset, List.mem_filter, notBot, ne_eq,
    decide_not, Bool.not_eq_true', decide_eq_false_iff_not]
  tauto

/-- Witness for C5 at the spec's example: an issue authored by `alice` with
comments from `bob`, `some-bot[bot]` and `London-Cat` yields exactly
`{alice, bob}`. -/
theorem get_issue_participants_witness :
    (insert "alice" (((["bob", "some-bot[bot]", "London-Cat"] : List String).take 30).filter
        (fun l => l ≠ "London-Cat")).toFinset).card ≤ 9 ∧
    get_issue_participants ⟨"alice", ["bob", "some-bot[bot]", "London-Cat"]⟩ =
      ({"alice", "bob"} : Finset String) :=
  ⟨by decide,
   (get_issue_participants_spec ⟨"alice", ["bob", "some-bot[bot]", "London-Cat"]⟩
      (by decide)).trans (by decide)⟩

/-! ## `app.py` : participant ranking (lines 271-285) -/

/-- One element of `participant_data` in `post_or_update_issue_reputation`
(lines 277-281): `{'username': ..., 'score': ..., 'data': ...}`. -/
structure ParticipantEntry where
  username : String
  score : Int
  data : ActivityRecord
deriving Repr, DecidableEq

/-- Stable descending insertion of one entry: the entry goes in front of
the first element whose score is less than or equal to its own, so an
earlier-supplied entry always stays in front of a later equal-scored one. -/
def insertByScoreDesc (e : ParticipantEntry) :
    List ParticipantEntry → List ParticipantEntry
  | [] => [e]
  | x :: xs =>
      if x.score ≤ e.score then e :: x :: xs
      else x :: insertByScoreDesc e xs

/-- `participant_data.sort(key=lambda x: x['score'], reverse=True)`
(line 285).  Python's `list.sort` is a stable sort, and with `reverse=True`
it orders by descending key while preserving the input order of equal
keys; a stable sort is uniquely determined by that contract, so it is
embedded as this structurally-recursive stable insertion sort. -/
def sortByScoreDesc : List ParticipantEntry → List ParticipantEntry
  | [] => []
  | x :: xs => insertByScoreDesc x (sortByScoreDesc xs)

theorem insertByScoreDesc_perm (e : ParticipantEntry) :
    ∀ l : List ParticipantEntry, List.Perm (insertByScoreDesc e l) (e :: l)
  | [] => List.Perm.refl _
  | x :: xs => by
      rw [insertByScoreDesc]
      by_cases h : x.score ≤ e.score
      · rw [if_pos h]
      · rw [if_neg h]
        exact ((insertByScoreDesc_perm e xs).cons x).trans (List.Perm.swap e x xs)

theorem sortByScoreDesc_perm : ∀ l : List ParticipantEntry, List.Perm (sortByScoreDesc l) l
  | [] => List.Perm.refl _
  | x :: xs => by
      rw [sortByScoreDesc]
      exact (insertByScoreDesc_perm x (sortByScoreDesc xs)).trans
        ((sortByScoreDesc_perm xs).cons x)

theorem insertByScoreDesc_pairwise (e : ParticipantEntry) :
    ∀ l : List ParticipantEntry,
    l.Pairwise (fun a b => b.score ≤ a.score) →
    (insertByScoreDesc e l).Pairwise (fun a b => b.score ≤ a.score)
  | [], _ => List.pairwise_singleton _ _
  | x :: xs, h => by
      rw [insertByScoreDesc]
      rcases List.pairwise_cons.mp h with ⟨hx, hxs⟩
      by_cases hc : x.score ≤ e.score
      · rw [if_pos hc]
        refine List.pairwise_cons.mpr ⟨?_, h⟩
        intro y hy
        rcases List.mem_cons.mp hy with rfl | hy'
        · exact hc
        · exact le_trans (hx y hy') hc
      · rw [if_neg hc]
        refine List.pairwise_cons.mpr ⟨?_, insertByScoreDesc_pairwise e xs hxs⟩
        intro y hy
        rcases List.mem_cons.mp
            ((List.Perm.mem_iff (insertByScoreDesc_perm e xs)).mp hy) with rfl | hy'
        · exact le_of_not_le hc
        · exact hx y hy'

theorem insertByScoreDesc_filter (e : ParticipantEntry) (s : Int) :
    ∀ l : List ParticipantEntry,
    (insertByScoreDesc e l).filter (fun x => x.score = s) =
      (e :: l).filter (fun x => x.score = s)
  | [] => rfl
  | x :: xs => by
      rw [insertByScoreDesc]
      by_cases hc : x.score ≤ e.score
      · rw [if_pos hc]
      · rw [if_neg hc]
        by_cases he : e.score = s
        · have hx : ¬ (x.score = s) := by
            intro hxs
            exact hc (by rw [hxs, he])
          simp [List.filter_cons, hx, he, insertByScoreDesc_filter e s xs]
        · simp [List.filter_cons, he, insertByScoreDesc_filter e s xs]

/-- C6: the ranking step sorts the supplied entries into non-increasing
score order, outputs exactly the supplied entries, and is stable: for every
score, the entries carrying that score appear in exactly their supplied
order.  (Being a function of the input list, the output is deterministic.) -/
theorem sortByScoreDesc_spec (l : List ParticipantEntry) :
    (sortByScoreDesc l).Pairwise (fun a b => b.score ≤ a.score)
    ∧ List.Perm (sortByScoreDesc l) l
    ∧ ∀ s : Int, (sortByScoreDesc l).filter (fun x => x.score = s) =
        l.filter (fun x => x.score = s) := by
  refine ⟨?_, sortByScoreDesc_perm l, ?_⟩
  · induction l with
    | nil => exact List.Pairwise.nil
    | cons x xs ih => exact insertByScoreDesc_pairwise x _ ih
  · intro s
    induction l with
    | nil => rfl
    | cons x xs ih =>
        rw [sortByScoreDesc, insertByScoreDesc_filter x s (sortByScoreDesc xs)]
        simp [List.filter_cons, ih]

/-! ## Username extraction and the summary-table renderer -/

/-- A character GitHub allows in a login, for the `@username` pattern. -/
def isUserChar (c : Char) : Bool := c.isAlphanum || c = '-' || c = '_'

/-- Mention scanner over the characters of a comment body: at each `@`,
collect the longest following run of username characters. -/
def extractMentions : List Char → List String
  | [] => []
  | c :: rest =>
      if c = '@' then
        if rest.takeWhile isUserChar = [] then extractMentions rest
        else String.mk (rest.takeWhile isUserChar) :: extractMentions rest
      else extractMentions rest

/-- Modelled from the spec: `GithubClient.extract_usernames_from_comment`
is called at line 260 of `app.py` but is not defined anywhere under `src/`;
§4.4 of the design specifies it as extracting "the set of usernames already
mentioned in its body (by matching an `@username` pattern)". -/
def extract_usernames_from_comment (body : String) : List String :=
  extractMentions body.data

theorem takeWhile_eq_of_append (p : Char → Bool) (stop : Char) (hs : p stop = false) :
    ∀ (u suf : List Char), (∀ c ∈ u, p c = true) →
    (u ++ stop :: suf).takeWhile p = u
  | [], suf, _ => by simp [List.takeWhile_cons, hs]
  | c :: u, suf, hu => by
      have hc : p c = true := hu c (by simp)
      simp only [List.cons_append, List.takeWhile_cons, hc, if_true]
      rw [takeWhile_eq_of_append p stop hs u suf (fun d hd => hu d (by simp [hd]))]

/-- Any `@`-anchored username run delimited by a non-username character is
found by the mention scanner, wherever it sits in the body. -/
theorem mem_extractMentions (u : List Char) (hne : u ≠ [])
    (hu : ∀ c ∈ u, isUserChar c = true) (stop : Char) (hstop : isUserChar stop = false) :
    ∀ (pre suf : List Char),
    String.mk u ∈ extractMentions (pre ++ '@' :: (u ++ stop :: suf))
  | [], suf => by
      rw [List.nil_append, extractMentions, if_pos rfl,
        takeWhile_eq_of_append isUserChar stop hstop u suf hu]
      rw [if_neg hne]
      exact List.mem_cons_self _ _
  | c :: pre, suf => by
      rw [List.cons_append, extractMentions]
      by_cases hc : c = '@'
      · rw [if_pos hc]
        by_cases hr : (pre ++ '@' :: (u ++ stop :: suf)).takeWhile isUserChar = []
        · rw [if_pos hr]
          exact mem_extractMentions u hne hu stop hstop pre suf
        · rw [if_neg hr]
          exact List.mem_cons_of_mem _ (mem_extractMentions u hne hu stop hstop pre suf)
      · rw [if_neg hc]
        exact mem_extractMentions u hne hu stop hstop pre suf

/-- Mention extraction at the `String` level: a body of the shape
`pre ++ "@" ++ u ++ "**" ++ suf` mentions `u`. -/
theorem mem_extract_of_split (pre u suf : String) (hne : u.data ≠ [])
    (hu : ∀ c ∈ u.data, isUserChar c = true) :
    u ∈ extract_usernames_from_comment (pre ++ "@" ++ u ++ "**" ++ suf) := by
  have hdata : (pre ++ "@" ++ u ++ "**" ++ suf).data =
      pre.data ++ '@' :: (u.data ++ '*' :: ('*' :: suf.data)) := by
    simp [String.data_append]
  have hstar : isUserChar '*' = false := by decide
  have h := mem_extractMentions u.data hne hu '*' hstar pre.data ('*' :: suf.data)
  rw [extract_usernames_from_comment, hdata]
  have hmk : String.mk u.data = u := rfl
  rw [hmk] at h
  exact h


/-- Everything in a participant row after the bold `@username` mention
(lines 296-319 of `app.py`): score cell, clickable PR/issue links, the
always-zero assigned count (`reputation_data.get('assigned_issues', 0)`:
`get_user_reputation` never sets that key) and the core-reaction cell. -/
def participantRowTail (e : ParticipantEntry) : String :=
  let username := e.username
  let reputation_data := e.data
  let reputation_score := e.score
  let merged_link := "[" ++ toString reputation_data.merged_prs
    ++ "âœ…](https://github.com/archestra-ai/archestra/pulls?q=is%3Apr%20author%3A"
    ++ username ++ "%20is%3Amerged)"
  let open_link := "[" ++ toString reputation_data.open_prs
    ++ "ðŸ”„](https://github.com/archestra-ai/archestra/pulls?q=is%3Apr%20author%3A"
    ++ username ++ "%20is%3Aopen)"
  let closed_link := "[" ++ toString reputation_data.closed_prs
    ++ "âŒ](https://github.com/archestra-ai/archestra/pulls?q=is%3Apr%20author%3A"
    ++ username ++ "%20is%3Aclosed%20is%3Aunmerged)"
  let pr_str := merged_link ++ " " ++ open_link ++ " " ++ closed_link
  let issues_link := "[" ++ toString reputation_data.issues
    ++ " issues](https://github.com/archestra-ai/archestra/issues?q=is%3Aissue%20author%3A"
    ++ username ++ ")"
  let activity_str := issues_link ++ ", " ++ toString reputation_data.comments ++ " comments"
  let assigned_count : Nat := 0
  let assigned_link := "[" ++ toString assigned_count
    ++ "](https://github.com/archestra-ai/archestra/issues?q=is%3Aissue%20state%3Aopen%20assignee%3A"
    ++ username ++ ")"
  let core_str := if reputation_data.core_thumbs_up > 0 then
      "+" ++ toString reputation_data.core_thumbs_up ++ "ðŸ‘" else ""
  let core_str := if reputation_data.core_thumbs_down > 0 then
      (if core_str ≠ "" then core_str ++ " " else core_str)
        ++ "-" ++ toString reputation_data.core_thumbs_down ++ "ðŸ‘Ž"
    else core_str
  let core_str := if core_str = "" then "â€”" else core_str
  " | âš¡ " ++ toString reputation_score ++ " | "
    ++ pr_str ++ " | " ++ activity_str ++ " | " ++ assigned_link ++ " | " ++ core_str ++ " |\n"

/-- One row of the summary table (line 319):
`| **@{username}** | ...`, split around the mention. -/
def participantRow (e : ParticipantEntry) : String :=
  "| **" ++ "@" ++ e.username ++ "**" ++ participantRowTail e

/-- The table header (lines 287-289). -/
def tableHeader : String :=
  "## ðŸ“Š Reputation Summary\n\n"
    ++ "| User | Rep | Pull Requests | Activity | Assigned | Core Reactions |\n"
    ++ "|------|-----|---------------|----------|----------|----------------|\n"

/-- The table footer (lines 321-322). -/
def tableFooter : String :=
  "\n---\n"
    ++ "_Generated by [Reputation Bot](https://github.com/archestra-ai/reputation-bot)_ ðŸ¤–"

/-- The full summary-comment body (lines 287-322): header, one row per
entry of the (sorted) participant data in order, footer. -/
def tableBody (sorted : List ParticipantEntry) : String :=
  (sorted.foldl (fun b e => b ++ participantRow e) tableHeader) ++ tableFooter

/-- The concatenation of the rendered rows of a participant list. -/
def concatRows : List ParticipantEntry → String
  | [] => ""
  | e :: rest => participantRow e ++ concatRows rest

theorem foldl_append_rows (l : List ParticipantEntry) :
    ∀ b : String, l.foldl (fun b e => b ++ participantRow e) b = b ++ concatRows l := by
  induction l with
  | nil => intro b; simp [concatRows]
  | cons x xs ih =>
      intro b
      rw [List.foldl_cons, ih (b ++ participantRow x), concatRows, String.append_assoc]

theorem concatRows_append (e : ParticipantEntry) (l₂ : List ParticipantEntry) :
    ∀ l₁ : List ParticipantEntry,
    concatRows (l₁ ++ e :: l₂) = concatRows l₁ ++ (participantRow e ++ concatRows l₂)
  | [] => by simp [concatRows]
  | x :: l₁ => by
      rw [List.cons_append, concatRows, concatRows_append e l₂ l₁, concatRows,
        String.append_assoc]

/-- Every entry of the rendered table is mentioned (as `@username`) in the
rendered body, provided the username is a nonempty run of username
characters. -/
theorem username_mem_extract_tableBody (l : List ParticipantEntry)
    (e : ParticipantEntry) (he : e ∈ l) (hne : e.username.data ≠ [])
    (hu : ∀ c ∈ e.username.data, isUserChar c = true) :
    e.username ∈ extract_usernames_from_comment (tableBody l) := by
  obtain ⟨l₁, l₂, rfl⟩ := List.append_of_mem he
  have hbody : tableBody (l₁ ++ e :: l₂) =
      (tableHeader ++ concatRows l₁ ++ "| **") ++ "@" ++ e.username
        ++ "**" ++ (participantRowTail e ++ concatRows l₂ ++ tableFooter) := by
    rw [tableBody, foldl_append_rows, concatRows_append, participantRow]
    simp [String.append_assoc]
  rw [hbody]
  exact mem_extract_of_split
    (tableHeader ++ concatRows l₁ ++ "| **") e.username
    (participantRowTail e ++ concatRows l₂ ++ tableFooter) hne hu

/-! ## `app.py` : comment reconciliation (lines 247-342) -/

/-- An existing bot comment as returned by `find_bot_comment`: its opaque
`id` and its `body` (the dictionary of lines 247-250 of
`github_client.py`). -/
structure BotComment where
  id : Nat
  body : String
deriving Repr, DecidableEq

/-- The write operations the reconciler can issue against a thread. -/
inductive WriteOp where
  | postComment (body : String)
  | updateComment (id : Nat) (body : String)
deriving Repr, DecidableEq

/-- The thread's recognized bot comment under sequential processing: what
`find_bot_comment` returns (`none` when there is none).  Every body the
reconciler writes contains the `Generated by [Reputation Bot]` signature
checked at line 241 of `github_client.py`, so a comment written by the bot
is recognized again on the next lookup. -/
structure ThreadState where
  botComment : Option BotComment
deriving Repr, DecidableEq

/-- The write phase of `post_or_update_issue_reputation` (lines 324-340):
a first `find_bot_comment` lookup (`l₁`) and — only when it finds
nothing — a second lookup (`l₂`) immediately before posting; a comment
found by either lookup is updated in place, and a new comment is posted
only when both lookups found none. -/
def writePhase (l₁ l₂ : Option BotComment) (body : String) : List WriteOp :=
  match l₁ with
  | some c => [.updateComment c.id body]
  | none =>
      match l₂ with
      | some c => [.updateComment c.id body]
      | none => [.postComment body]

/-- Effect of one write on the thread: a posted comment becomes the
thread's bot comment under some fresh id (taken to be 0), an update
rewrites the body in place. -/
def applyWrite (_s : ThreadState) : WriteOp → ThreadState
  | .postComment body => { botComment := some ⟨0, body⟩ }
  | .updateComment id body => { botComment := some ⟨id, body⟩ }

/-- The skip check (lines 258-266): an existing comment whose extracted
username set already covers every candidate participant
(`participants.issubset(existing_usernames)`). -/
def coveredBy (s : ThreadState) (participants : List String) : Bool :=
  match s.botComment with
  | some c => participants.all (fun u => u ∈ extract_usernames_from_comment c.body)
  | none => false

/-- The data-collection loop (lines 272-282): one
`{'username': ..., 'score': ..., 'data': ...}` entry per participant, the
record coming from `get_user_reputation` (here the oracle `reputation`). -/
def participantData (reputation : String → ActivityRecord)
    (participants : List String) : List ParticipantEntry :=
  participants.map (fun username =>
    { username := username
      score := calculate_reputation (reputation username)
      data := reputation username })

/-- `post_or_update_issue_reputation` (lines 247-342) for a thread with
participant list `participants` (in iteration order) and sequential thread
state `s`: empty-participant guard, skip check, data collection, stable
sort, rendering, then the double-checked write phase.  Returns the new
thread state and the writes performed. -/
def post_or_update_issue_reputation (reputation : String → ActivityRecord)
    (participants : List String) (s : ThreadState) : ThreadState × List WriteOp :=
  if participants = [] then (s, [])
  else if coveredBy s participants then (s, [])
  else
    let sorted := sortByScoreDesc (participantData reputation participants)
    let comment_body := tableBody sorted
    let ops := writePhase s.botComment s.botComment comment_body
    (ops.foldl applyWrite s, ops)

/-- C9: in the write phase, a new comment is posted exactly when both
consecutive `find_bot_comment` lookups return `none`; whenever either
lookup finds an existing comment, that comment is updated in place with
the rendered body and nothing new is posted. -/
theorem writePhase_post_iff (body : String) :
    (∀ l₁ l₂ : Option BotComment,
      WriteOp.postComment body ∈ writePhase l₁ l₂ body ↔ l₁ = none ∧ l₂ = none) ∧
    (∀ c : BotComment, ∀ l₂ : Option BotComment,
      writePhase (some c) l₂ body = [.updateComment c.id body]) ∧
    (∀ c : BotComment, writePhase none (some c) body = [.updateComment c.id body]) ∧
    writePhase none none body = [.postComment body] := by
  refine ⟨?_, fun c l₂ => rfl, fun c => rfl, rfl⟩
  intro l₁ l₂
  cases l₁ with
  | some c => simp [writePhase]
  | none =>
      cases l₂ with
      | some c => simp [writePhase]
      | none => simp [writePhase]

theorem writePhase_length (l₁ l₂ : Option BotComment) (body : String) :
    (writePhase l₁ l₂ body).length = 1 := by
  cases l₁ with
  | some c => rfl
  | none => cases l₂ with
    | some c => rfl
    | none => rfl

/-- After a write of the rendered table for `participants`, the thread's
comment covers `participants` (usernames being nonempty runs of username
characters). -/
theorem coveredBy_after_render (reputation : String → ActivityRecord)
    (participants : List String)
    (hwf : ∀ u ∈ participants, u.data ≠ [] ∧ ∀ c ∈ u.data, isUserChar c = true)
    (id : Nat) :
    coveredBy ⟨some ⟨id, tableBody (sortByScoreDesc
      (participantData reputation participants))⟩⟩ participants = true := by
  rw [coveredBy]
  rw [List.all_eq_true]
  intro u hu
  have he : (⟨u, calculate_reputation (reputation u), reputation u⟩ : ParticipantEntry) ∈
      participantData reputation participants :=
    List.mem_map_of_mem _ hu
  have hs : (⟨u, calculate_reputation (reputation u), reputation u⟩ : ParticipantEntry) ∈
      sortByScoreDesc (participantData reputation participants) :=
    (List.Perm.mem_iff (sortByScoreDesc_perm _)).mpr he
  have := username_mem_extract_tableBody _ _ hs (hwf u hu).1 (hwf u hu).2
  simpa using this

/-- C3: a thread whose existing bot comment already mentions every
candidate participant gets no write at all; and from any not-yet-covered
state, two successive reconciliations with the same (nonempty, well-formed)
participant list perform exactly one write in total — the second call
finds the comment written by the first and skips. -/
theorem post_or_update_skip_and_idempotent (reputation : String → ActivityRecord)
    (participants : List String) :
    (∀ s : ThreadState, coveredBy s participants = true →
      (post_or_update_issue_reputation reputation participants s).2 = []) ∧
    (∀ s : ThreadState, coveredBy s participants = false →
      participants ≠ [] →
      (∀ u ∈ participants, u.data ≠ [] ∧ ∀ c ∈ u.data, isUserChar c = true) →
      ((post_or_update_issue_reputation reputation participants s).2
        ++ (post_or_update_issue_reputation reputation participants
            (post_or_update_issue_reputation reputation participants s).1).2).length = 1) := by
  constructor
  · intro s hc
    unfold post_or_update_issue_reputation
    by_cases hp : participants = [] <;> simp [hp, hc]
  · intro s hnc hne hwf
    have hstep : post_or_update_issue_reputation reputation participants s =
        ((writePhase s.botComment s.botComment (tableBody (sortByScoreDesc
            (participantData reputation participants)))).foldl applyWrite s,
         writePhase s.botComment s.botComment (tableBody (sortByScoreDesc
            (participantData reputation participants)))) := by
      unfold post_or_update_issue_reputation
      simp [hne, hnc]
    rw [hstep]
    set body := tableBody (sortByScoreDesc (participantData reputation participants)) with hbody
    have hcov : ∀ id : Nat,
        coveredBy ⟨some ⟨id, body⟩⟩ participants = true := fun id =>
      coveredBy_after_render reputation participants hwf id
    have hsecond : ∀ id : Nat,
        (post_or_update_issue_reputation reputation participants ⟨some ⟨id, body⟩⟩).2 = [] := by
      intro id
      unfold post_or_update_issue_reputation
      simp [hne, hcov id]
    cases hb : s.botComment with
    | none =>
        rw [writePhase]
        simp only [List.foldl_cons, List.foldl_nil, applyWrite]
        rw [hsecond 0]
        rfl
    | some c =>
        rw [writePhase]
        simp only [List.foldl_cons, List.foldl_nil, applyWrite]
        rw [hsecond c.id]
        rfl

/-- Witness for C3: participants `alice` and `bob` on a thread with no bot
comment — the two successive reconciliations perform exactly one write. -/
theorem post_or_update_skip_and_idempotent_witness :
    coveredBy ⟨none⟩ ["alice", "bob"] = false ∧
    ((post_or_update_issue_reputation (fun _ => ⟨1, 0, 0, 0, 0, 0, 0⟩)
        ["alice", "bob"] ⟨none⟩).2
      ++ (post_or_update_issue_reputation (fun _ => ⟨1, 0, 0, 0, 0, 0, 0⟩)
          ["alice", "bob"]
          (post_or_update_issue_reputation (fun _ => ⟨1, 0, 0, 0, 0, 0, 0⟩)
            ["alice", "bob"] ⟨none⟩).1).2).length = 1 :=
  ⟨rfl,
   (post_or_update_skip_and_idempotent (fun _ => ⟨1, 0, 0, 0, 0, 0, 0⟩)
      ["alice", "bob"]).2 ⟨none⟩ rfl (by decide) (by decide)⟩

/-! ## `app.py` : event routing (lines 142-245) -/

/-- Python truthiness of an optional string payload field: `not author`
holds for a missing key and for the empty string. -/
def truthyStr : Option String → Bool
  | none => false
  | some s => s ≠ ""

/-- Python truthiness of an optional integer payload field: `not pr_number`
holds for a missing key and for the integer 0. -/
def truthyInt : Option Int → Bool
  | none => false
  | some n => n ≠ 0

/-- `merged_points` (line 171). -/
def merged_points : Int := 20

/-- `open_points` (line 172; declared but never interpolated into the
comment text). -/
def open_points : Int := 3

/-- `closed_points` (line 173). -/
def closed_points : Int := -10

/-- `issue_points` (line 174). -/
def issue_points : Int := 5

/-- `thumbs_up_points` (line 175). -/
def thumbs_up_points : Int := 15

/-- `thumbs_down_points` (line 176). -/
def thumbs_down_points : Int := -50

/-- The literal segments of the auto-close comment f-string
(lines 179-194 of `app.py`), between the interpolated values. -/
def ccSeg1 : String := "## âš ï¸ Pull Request Auto-Closed\n    \n"

def ccSeg2 : String :=
  "\n\nThis pull request has been automatically closed because the author\x27s reputation score ("

def ccSeg3 : String := ") is below the minimum threshold of "

def ccSeg4 : String :=
  ".\n\nTo improve your reputation:\n- Create quality pull requests that get merged (+"

def ccSeg5 : String := " points each)\n- Open issues that contribute to the project (+"

def ccSeg6 : String := " points each)\n- Avoid having PRs closed without merging ("

def ccSeg7 : String := " points each)\n- Earn positive reactions from core team members (+"

def ccSeg8 : String := " points each)\n- Avoid negative reactions from core team members ("

def ccSeg9 : String :=
  " points each)\n\nPlease work on improving your contribution quality and reputation before submitting new pull requests.\n\n_Generated by Reputation Bot_"

/-- The auto-close explanation comment (lines 179-194): the f-string with
the reputation line, the score, the threshold and the point values
interpolated. -/
def close_comment (reputation_line : String)
    (reputation_score REPUTATION_THRESHOLD : Int) : String :=
  ccSeg1 ++ reputation_line ++ ccSeg2 ++ toString reputation_score ++ ccSeg3
    ++ toString REPUTATION_THRESHOLD ++ ccSeg4 ++ toString merged_points ++ ccSeg5
    ++ toString issue_points ++ ccSeg6 ++ toString closed_points ++ ccSeg7
    ++ toString thumbs_up_points ++ ccSeg8 ++ toString thumbs_down_points ++ ccSeg9

/-- The platform writes `handle_pull_request` can issue:
`github_client.post_comment` and `github_client.close_pull_request`
(the latter is invoked at line 199 of `app.py`; the action records the
request). -/
inductive PRAction where
  | postComment (pr_number : Int) (body : String)
  | closePullRequest (pr_number : Int)
deriving Repr, DecidableEq

/-- The fields `handle_pull_request` reads from a `pull_request` payload
(lines 149-151): `payload['action']`,
`payload['pull_request'].get('number')` and
`payload['pull_request'].get('user', {}).get('login')`. -/
structure PRPayload where
  action : String
  number : Option Int
  author : Option String
deriving Repr, DecidableEq

/-- `handle_pull_request` (lines 142-207): ignore actions other than
opened/reopened, no-op on non-truthy author or number, otherwise fetch the
author reputation (`get_user_reputation` under environment `fenv`),
compute the score and line, and either run the auto-close branch (post the
explanation comment, then request the close) or post the single-line
reputation comment.  The result lists the platform writes in order; the
function is total, so a guarded no-op returns normally. -/
def handle_pull_request (core_team : List String) (fenv : String → FetchEnv)
    (REPUTATION_THRESHOLD : Int) (payload : PRPayload) : List PRAction :=
  if ¬ (payload.action = "opened" ∨ payload.action = "reopened") then []
  else if ¬ (truthyStr payload.author ∧ truthyInt payload.number) then []
  else
    let author := payload.author.getD ""
    let pr_number := payload.number.getD 0
    let reputation_data := get_user_reputation author core_team (fenv author)
    let reputation_score := calculate_reputation reputation_data
    let reputation_line := format_reputation_line reputation_score reputation_data
    if reputation_score < REPUTATION_THRESHOLD then
      [.postComment pr_number
        (close_comment reputation_line reputation_score REPUTATION_THRESHOLD),
       .closePullRequest pr_number]
    else
      [.postComment pr_number (reputation_line ++ "\n\n_Generated by Reputation Bot_")]

/-- The fields `handle_issue` reads from an `issues` payload
(lines 216-218). -/
structure IssuePayload where
  action : String
  number : Option Int
  author : Option String
deriving Repr, DecidableEq

/-- `handle_issue` (lines 209-226): ignore actions other than
opened/reopened, no-op on non-truthy author or number, otherwise run
`post_or_update_issue_reputation` on the thread, whose participant list
and sequential state are given by `participants_of` / `state_of`. -/
def handle_issue (reputation : String → ActivityRecord)
    (participants_of : Int → List String) (state_of : Int → ThreadState)
    (payload : IssuePayload) : List WriteOp :=
  if ¬ (payload.action = "opened" ∨ payload.action = "reopened") then []
  else if ¬ (truthyStr payload.author ∧ truthyInt payload.number) then []
  else
    (post_or_update_issue_reputation reputation
      (participants_of (payload.number.getD 0)) (state_of (payload.number.getD 0))).2

/-- C4: on an opened/reopened pull request with truthy author and number,
a score strictly below the threshold produces exactly the auto-close
comment followed by the close request (and hence not the normal
reputation comment), while a score at or above the threshold produces
exactly the normal single-line reputation comment and no close request;
the auto-close body embeds the score, the threshold and the per-action
point values. -/
theorem handle_pull_request_threshold (core_team : List String)
    (fenv : String → FetchEnv) (thr : Int) (payload : PRPayload)
    (a : String) (n : Int) (d : ActivityRecord)
    (hact : payload.action = "opened" ∨ payload.action = "reopened")
    (hau : payload.author = some a) (hane : a ≠ "")
    (hn : payload.number = some n) (hnne : n ≠ 0)
    (hd : get_user_reputation a core_team (fenv a) = d) :
    (calculate_reputation d < thr →
      handle_pull_request core_team fenv thr payload =
        [.postComment n (close_comment
            (format_reputation_line (calculate_reputation d) d) (calculate_reputation d) thr),
         .closePullRequest n]) ∧
    (thr ≤ calculate_reputation d →
      handle_pull_request core_team fenv thr payload =
        [.postComment n (format_reputation_line (calculate_reputation d) d
          ++ "\n\n_Generated by Reputation Bot_")] ∧
      ∀ m : Int, PRAction.closePullRequest m ∉ handle_pull_request core_team fenv thr payload) ∧
    (∃ u v : String, close_comment (format_reputation_line (calculate_reputation d) d)
        (calculate_reputation d) thr = u ++ toString (calculate_reputation d) ++ v) ∧
    (∃ u v : String, close_comment (format_reputation_line (calculate_reputation d) d)
        (calculate_reputation d) thr = u ++ toString thr ++ v) ∧
    ((∃ u v : String, close_comment (format_reputation_line (calculate_reputation d) d)
        (calculate_reputation d) thr = u ++ toString merged_points ++ v) ∧
     (∃ u v : String, close_comment (format_reputation_line (calculate_reputation d) d)
        (calculate_reputation d) thr = u ++ toString issue_points ++ v) ∧
     (∃ u v : String, close_comment (format_reputation_line (calculate_reputation d) d)
        (calculate_reputation d) thr = u ++ toString closed_points ++ v) ∧
     (∃ u v : String, close_comment (format_reputation_line (calculate_reputation d) d)
        (calculate_reputation d) thr = u ++ toString thumbs_up_points ++ v) ∧
     (∃ u v : String, close_comment (format_reputation_line (calculate_reputation d) d)
        (calculate_reputation d) thr = u ++ toString thumbs_down_points ++ v)) ∧
    (toString merged_points = "20" ∧ toString issue_points = "5"
      ∧ toString closed_points = "-10" ∧ toString thumbs_up_points = "15"
      ∧ toString thumbs_down_points = "-50") := by
  have hguard : handle_pull_request core_team fenv thr payload =
      (if calculate_reputation d < thr then
        [.postComment n (close_comment
            (format_reputation_line (calculate_reputation d) d) (calculate_reputation d) thr),
         .closePullRequest n]
      else
        [.postComment n (format_reputation_line (calculate_reputation d) d
          ++ "\n\n_Generated by Reputation Bot_")]) := by
    unfold handle_pull_request
    rw [if_neg (by simp [hact]), if_neg (by simp [hau, hn, truthyStr, truthyInt, hane, hnne])]
    simp only [hau, hn, Option.getD_some, hd]
  set line := format_reputation_line (calculate_reputation d) d with hline
  refine ⟨fun hlt => by rw [hguard, if_pos hlt], fun hge => ?_, ?_, ?_, ⟨?_, ?_, ?_, ?_, ?_⟩, by decide⟩
  · have hnlt : ¬ calculate_reputation d < thr := not_lt.mpr hge
    rw [hguard, if_neg hnlt]
    exact ⟨rfl, fun m hm => by simp at hm⟩
  · exact ⟨ccSeg1 ++ line ++ ccSeg2,
      ccSeg3 ++ toString thr ++ ccSeg4 ++ toString merged_points ++ ccSeg5
        ++ toString issue_points ++ ccSeg6 ++ toString closed_points ++ ccSeg7
        ++ toString thumbs_up_points ++ ccSeg8 ++ toString thumbs_down_points ++ ccSeg9,
      by simp [close_comment, String.append_assoc]⟩
  · exact ⟨ccSeg1 ++ line ++ ccSeg2 ++ toString (calculate_reputation d) ++ ccSeg3,
      ccSeg4 ++ toString merged_points ++ ccSeg5
        ++ toString issue_points ++ ccSeg6 ++ toString closed_points ++ ccSeg7
        ++ toString thumbs_up_points ++ ccSeg8 ++ toString thumbs_down_points ++ ccSeg9,
      by simp [close_comment, String.append_assoc]⟩
  · exact ⟨ccSeg1 ++ line ++ ccSeg2 ++ toString (calculate_reputation d) ++ ccSeg3
        ++ toString thr ++ ccSeg4,
      ccSeg5 ++ toString issue_points ++ ccSeg6 ++ toString closed_points ++ ccSeg7
        ++ toString thumbs_up_points ++ ccSeg8 ++ toString thumbs_down_points ++ ccSeg9,
      by simp [close_comment, String.append_assoc]⟩
  · exact ⟨ccSeg1 ++ line ++ ccSeg2 ++ toString (calculate_reputation d) ++ ccSeg3
        ++ toString thr ++ ccSeg4 ++ toString merged_points ++ ccSeg5,
      ccSeg6 ++ toString closed_points ++ ccSeg7
        ++ toString thumbs_up_points ++ ccSeg8 ++ toString thumbs_down_points ++ ccSeg9,
      by simp [close_comment, String.append_assoc]⟩
  · exact ⟨ccSeg1 ++ line ++ ccSeg2 ++ toString (calculate_reputation d) ++ ccSeg3
        ++ toString thr ++ ccSeg4 ++ toString merged_points ++ ccSeg5
        ++ toString issue_points ++ ccSeg6,
      ccSeg7 ++ toString thumbs_up_points ++ ccSeg8 ++ toString thumbs_down_points ++ ccSeg9,
      by simp [close_comment, String.append_assoc]⟩
  · exact ⟨ccSeg1 ++ line ++ ccSeg2 ++ toString (calculate_reputation d) ++ ccSeg3
        ++ toString thr ++ ccSeg4 ++ toString merged_points ++ ccSeg5
        ++ toString issue_points ++ ccSeg6 ++ toString closed_points ++ ccSeg7,
      ccSeg8 ++ toString thumbs_down_points ++ ccSeg9,
      by simp [close_comment, String.append_assoc]⟩
  · exact ⟨ccSeg1 ++ line ++ ccSeg2 ++ toString (calculate_reputation d) ++ ccSeg3
        ++ toString thr ++ ccSeg4 ++ toString merged_points ++ ccSeg5
        ++ toString issue_points ++ ccSeg6 ++ toString closed_points ++ ccSeg7
        ++ toString thumbs_up_points ++ ccSeg8,
      ccSeg9,
      by simp [close_comment, String.append_assoc]⟩

/-- The environment used in the C4 witness: the author has 9 closed pull
requests and 1 issue, giving score `-90 + 5 = -85`. -/
def lowScoreEnv : FetchEnv :=
  { pr_search := .ok (List.replicate 9 ⟨"mallory", false, "closed"⟩)
    pr_fallback := .ok []
    issue_search := .ok 1
    issue_fallback := .ok []
    comment_search := .fail }

/-- Witness for C4 at the spec's example: threshold `-80`, author scoring
`-85` — the handler posts the auto-close comment and requests the close. -/
theorem handle_pull_request_threshold_witness :
    calculate_reputation ⟨0, 0, 9, 1, 0, 0, 0⟩ < -80 ∧
    handle_pull_request [] (fun _ => lowScoreEnv) (-80) ⟨"opened", some 7, some "mallory"⟩ =
      [.postComment 7 (close_comment
          (format_reputation_line (calculate_reputation ⟨0, 0, 9, 1, 0, 0, 0⟩)
            ⟨0, 0, 9, 1, 0, 0, 0⟩)
          (calculate_reputation ⟨0, 0, 9, 1, 0, 0, 0⟩) (-80)),
       .closePullRequest 7] :=
  ⟨by decide,
   (handle_pull_request_threshold [] (fun _ => lowScoreEnv) (-80)
      ⟨"opened", some 7, some "mallory"⟩ "mallory" 7 ⟨0, 0, 9, 1, 0, 0, 0⟩
      (Or.inl rfl) rfl (by decide) rfl (by decide) (by decide)).1 (by decide)⟩

/-- C8: a `pull_request` payload with a non-truthy author login or PR
number produces no platform write; being a total function of the payload,
the handler returns normally, so the event is acknowledged as success. -/
theorem handle_pull_request_missing_data (core_team : List String)
    (fenv : String → FetchEnv) (thr : Int) (payload : PRPayload)
    (h : truthyStr payload.author = false ∨ truthyInt payload.number = false) :
    handle_pull_request core_team fenv thr payload = [] := by
  unfold handle_pull_request
  by_cases hact : payload.action = "opened" ∨ payload.action = "reopened"
  · rw [if_neg (by simp [hact])]
    rcases h with h | h <;> rw [if_pos (by simp [h])]
  · rw [if_pos (by simp [hact])]

/-- Witness for C8: an opened pull request with a number but no author
login is a no-op. -/
theorem handle_pull_request_missing_data_witness :
    truthyStr (none : Option String) = false ∧
    handle_pull_request [] (fun _ => lowScoreEnv) (-80) ⟨"opened", some 5, none⟩ = [] :=
  ⟨rfl, handle_pull_request_missing_data [] (fun _ => lowScoreEnv) (-80)
    ⟨"opened", some 5, none⟩ (Or.inl rfl)⟩

/-- C10: a thread number equal to the integer 0 is treated exactly like a
missing number by both handlers — the truthiness check `not pr_number`
does not distinguish `0` from an absent field — so each handler performs a
no-op even when the author login is present and truthy. -/
theorem zero_number_treated_as_missing (core_team : List String)
    (fenv : String → FetchEnv) (thr : Int) (reputation : String → ActivityRecord)
    (participants_of : Int → List String) (state_of : Int → ThreadState)
    (act : String) (a : String) (_hane : a ≠ "") :
    handle_pull_request core_team fenv thr ⟨act, some 0, some a⟩ = [] ∧
    handle_issue reputation participants_of state_of ⟨act, some 0, some a⟩ = [] := by
  constructor <;>
  · by_cases hact : act = "opened" ∨ act = "reopened" <;>
      simp [handle_pull_request, handle_issue, hact, truthyInt]

/-- Witness for C10 with author `alice` on both handlers. -/
theorem zero_number_treated_as_missing_witness :
    ("alice" : String) ≠ "" ∧
    handle_pull_request [] (fun _ => lowScoreEnv) (-80) ⟨"opened", some 0, some "alice"⟩ = [] ∧
    handle_issue (fun _ => ⟨0, 0, 0, 0, 0, 0, 0⟩) (fun _ => []) (fun _ => ⟨none⟩)
      ⟨"opened", some 0, some "alice"⟩ = [] :=
  ⟨by decide,
   (zero_number_treated_as_missing [] (fun _ => lowScoreEnv) (-80)
      (fun _ => ⟨0, 0, 0, 0, 0, 0, 0⟩) (fun _ => []) (fun _ => ⟨none⟩)
      "opened" "alice" (by decide)).1,
   (zero_number_treated_as_missing [] (fun _ => lowScoreEnv) (-80)
      (fun _ => ⟨0, 0, 0, 0, 0, 0, 0⟩) (fun _ => []) (fun _ => ⟨none⟩)
      "opened" "alice" (by decide)).2⟩

end ReputationBot
